import Mathlib

/-!
# Verification of the platinum RTD conversion library

Shallow embedding of `src/lib/platinum_rtd_sensor.c` (functions
`RTD_CalculateResistance` and `RTD_CalculateTemperature`) over exact
rational arithmetic, together with theorems settling the specification
claims.  C `double` values are modelled as `ℚ` (the idealised real
semantics of the arithmetic expressions in the source); the C sensor-type
argument `uint16_t` is modelled as `ℕ`.  A second, NaN-aware model over
`Option ℚ` (with `none` playing the role of IEEE NaN in comparisons and
arithmetic) is used for the claim about NaN inputs.
-/

/-- Callendar–Van Dusen coefficient A, `#define RTD_A_COEFFICIENT 3.908302087e-3`. -/
def RTD_A_COEFFICIENT : ℚ := 3.908302087e-3

/-- Callendar–Van Dusen coefficient B, `#define RTD_B_COEFFICIENT -5.775000000e-7`. -/
def RTD_B_COEFFICIENT : ℚ := -5.775000000e-7

/-- Callendar–Van Dusen coefficient C, `#define RTD_C_COEFFICIENT -4.183010000e-12`. -/
def RTD_C_COEFFICIENT : ℚ := -4.183010000e-12

/-- Failure sentinel, `#define RTD_CONVERSION_FAILED -1.0e6`. -/
def RTD_CONVERSION_FAILED : ℚ := -1.0e6

/-- `#define RTD_SENSOR_PT50 50` -/
def RTD_SENSOR_PT50 : ℕ := 50

/-- `#define RTD_SENSOR_PT100 100` -/
def RTD_SENSOR_PT100 : ℕ := 100

/-- `#define RTD_SENSOR_PT200 200` -/
def RTD_SENSOR_PT200 : ℕ := 200

/-- `#define RTD_SENSOR_PT500 500` -/
def RTD_SENSOR_PT500 : ℕ := 500

/-- `#define RTD_SENSOR_PT1000 1000` -/
def RTD_SENSOR_PT1000 : ℕ := 1000

/-- The `switch (sensor_type)` mapping used by both C functions: reference
resistance at 0 °C per sensor class; `0` for the `default` case (the C code
leaves `resistance_at_zero` at its initial `0.0` there). -/
def resistance_at_zero (sensor_type : ℕ) : ℚ :=
  if sensor_type = RTD_SENSOR_PT50 then 50
  else if sensor_type = RTD_SENSOR_PT100 then 100
  else if sensor_type = RTD_SENSOR_PT200 then 200
  else if sensor_type = RTD_SENSOR_PT500 then 500
  else if sensor_type = RTD_SENSOR_PT1000 then 1000
  else 0

/-- The five recognized sensor-class values. -/
def recognizedClass (sensor_type : ℕ) : Prop :=
  sensor_type = RTD_SENSOR_PT50 ∨ sensor_type = RTD_SENSOR_PT100 ∨
  sensor_type = RTD_SENSOR_PT200 ∨ sensor_type = RTD_SENSOR_PT500 ∨
  sensor_type = RTD_SENSOR_PT1000

instance (sensor_type : ℕ) : Decidable (recognizedClass sensor_type) := by
  unfold recognizedClass; infer_instance

/-- Embedding of `RTD_CalculateResistance` from
`src/lib/platinum_rtd_sensor.c`.  The C function initialises
`resistance = RTD_CONVERSION_FAILED`, returns it unchanged when the range
check `(temperature < -200.5) || (temperature > 850.5)` fires, when the
`switch` hits `default` (which also sets `resistance = RTD_CONVERSION_FAILED`
and leaves `resistance_at_zero == 0`), or when `!resistance_at_zero`; otherwise
it evaluates the Callendar–Van Dusen polynomial, branching on
`temperature >= 0.0` and using `temp_squared = temperature * temperature`,
`temp_cubed = temp_squared * temperature`. -/
def RTD_CalculateResistance (sensor_type : ℕ) (temperature : ℚ) : ℚ :=
  if temperature < -200.5 ∨ temperature > 850.5 then
    RTD_CONVERSION_FAILED
  else if resistance_at_zero sensor_type = 0 then
    RTD_CONVERSION_FAILED
  else
    let temp_squared := temperature * temperature
    if 0 ≤ temperature then
      resistance_at_zero sensor_type *
        (1 + RTD_A_COEFFICIENT * temperature + RTD_B_COEFFICIENT * temp_squared)
    else
      let temp_cubed := temp_squared * temperature
      resistance_at_zero sensor_type *
        (1 + RTD_A_COEFFICIENT * temperature + RTD_B_COEFFICIENT * temp_squared +
          RTD_C_COEFFICIENT * (temperature - 100) * temp_cubed)

/-- The Callendar–Van Dusen polynomial factor (the parenthesised expression the
source multiplies by `resistance_at_zero`), with the source's sign branch. -/
def cvdPoly (t : ℚ) : ℚ :=
  if 0 ≤ t then
    1 + RTD_A_COEFFICIENT * t + RTD_B_COEFFICIENT * (t * t)
  else
    1 + RTD_A_COEFFICIENT * t + RTD_B_COEFFICIENT * (t * t) +
      RTD_C_COEFFICIENT * (t - 100) * (t * t * t)

lemma RTD_CalculateResistance_eq_poly (sensor_type : ℕ) (t : ℚ)
    (h1 : -200.5 ≤ t) (h2 : t ≤ 850.5) (h0 : resistance_at_zero sensor_type ≠ 0) :
    RTD_CalculateResistance sensor_type t = resistance_at_zero sensor_type * cvdPoly t := by
  unfold RTD_CalculateResistance cvdPoly
  rw [if_neg (by push_neg; exact ⟨h1, h2⟩), if_neg h0]
  by_cases ht : 0 ≤ t
  · rw [if_pos ht, if_pos ht]
  · rw [if_neg ht, if_neg ht]

lemma recognized_resistance_at_zero {sensor_type : ℕ} (h : recognizedClass sensor_type) :
    resistance_at_zero sensor_type ≠ 0 := by
  rcases h with h | h | h | h | h <;> subst h <;> decide

/-- C1: for every recognized sensor class and every temperature in
[-200.5, 850.5], `RTD_CalculateResistance` returns
`R0 * (1 + A*T + B*T^2)` when `T ≥ 0` and
`R0 * (1 + A*T + B*T^2 + C*(T - 100)*T^3)` when `T < 0`, where `R0` is the
class's reference resistance (50, 100, 200, 500, 1000 Ω). -/
theorem claim1_resistance_formula (sensor_type : ℕ) (T : ℚ)
    (hst : recognizedClass sensor_type) (h1 : -200.5 ≤ T) (h2 : T ≤ 850.5) :
    RTD_CalculateResistance sensor_type T =
      if 0 ≤ T then
        resistance_at_zero sensor_type *
          (1 + RTD_A_COEFFICIENT * T + RTD_B_COEFFICIENT * T ^ 2)
      else
        resistance_at_zero sensor_type *
          (1 + RTD_A_COEFFICIENT * T + RTD_B_COEFFICIENT * T ^ 2 +
            RTD_C_COEFFICIENT * (T - 100) * T ^ 3) := by
  rw [RTD_CalculateResistance_eq_poly sensor_type T h1 h2
    (recognized_resistance_at_zero hst)]
  unfold cvdPoly
  by_cases ht : 0 ≤ T
  · rw [if_pos ht, if_pos ht]; ring
  · rw [if_neg ht, if_neg ht]; ring

/-- Witness for C1 at sensor class PT100 and temperature 25 °C. -/
theorem claim1_resistance_formula_witness :
    RTD_CalculateResistance 100 25 =
      if 0 ≤ (25 : ℚ) then
        resistance_at_zero 100 *
          (1 + RTD_A_COEFFICIENT * 25 + RTD_B_COEFFICIENT * 25 ^ 2)
      else
        resistance_at_zero 100 *
          (1 + RTD_A_COEFFICIENT * 25 + RTD_B_COEFFICIENT * 25 ^ 2 +
            RTD_C_COEFFICIENT * (25 - 100) * 25 ^ 3) :=
  claim1_resistance_formula 100 25 (by decide) (by norm_num) (by norm_num)

/-- Loop-body expression `function_value` of `RTD_CalculateTemperature`:
`R0 * (CVD polynomial at the current estimate) - resistance`, branching on
`temperature_estimate >= 0.0` exactly as in the source. -/
def function_value (r0 resistance temperature_estimate : ℚ) : ℚ :=
  if 0 ≤ temperature_estimate then
    r0 * (1 + RTD_A_COEFFICIENT * temperature_estimate +
      RTD_B_COEFFICIENT * temperature_estimate * temperature_estimate) - resistance
  else
    let temp_squared := temperature_estimate * temperature_estimate
    let temp_cubed := temp_squared * temperature_estimate
    r0 * (1 + RTD_A_COEFFICIENT * temperature_estimate +
      RTD_B_COEFFICIENT * temp_squared +
      RTD_C_COEFFICIENT * (temperature_estimate - 100) * temp_cubed) - resistance

/-- Loop-body expression `derivative_value` of `RTD_CalculateTemperature`,
transcribed verbatim from the source.  Note the negative branch is
`R0 * (A + 2*B*t + 3*C*t^2 - 200*C*t + 300*C*t^2)` — the source computes
`3.0 * RTD_C_COEFFICIENT * temp_squared`, not a cubic term. -/
def derivative_value (r0 temperature_estimate : ℚ) : ℚ :=
  if 0 ≤ temperature_estimate then
    r0 * (RTD_A_COEFFICIENT + 2 * RTD_B_COEFFICIENT * temperature_estimate)
  else
    let temp_squared := temperature_estimate * temperature_estimate
    r0 * (RTD_A_COEFFICIENT + 2 * RTD_B_COEFFICIENT * temperature_estimate +
      3 * RTD_C_COEFFICIENT * temp_squared -
      200 * RTD_C_COEFFICIENT * temperature_estimate +
      300 * RTD_C_COEFFICIENT * temp_squared)

/-- Convergence tolerance of the Newton–Raphson loop, `const double tolerance = 1e-8`. -/
def rtdTolerance : ℚ := 1e-8

/-- The `while (iteration < max_iterations)` Newton–Raphson loop of
`RTD_CalculateTemperature`, with the remaining iteration budget as fuel.
Each iteration computes
`new_temperature_estimate = temperature_estimate - function_value / derivative_value`
and, when `|new - old| < tolerance`, assigns `temperature = new` and breaks.
When the fuel runs out (the C loop exhausts `max_iterations = 1000`), the C
function falls through and returns `temperature`, which still holds the `0.0`
it was initialised with — hence the `0` in the base case. -/
def newtonLoop (r0 resistance : ℚ) : ℕ → ℚ → ℚ
  | 0, _ => 0
  | n + 1, temperature_estimate =>
    let new_temperature_estimate :=
      temperature_estimate -
        function_value r0 resistance temperature_estimate /
          derivative_value r0 temperature_estimate
    if |new_temperature_estimate - temperature_estimate| < rtdTolerance then
      new_temperature_estimate
    else
      newtonLoop r0 resistance n new_temperature_estimate

/-- `const uint16_t max_iterations = 1000U`. -/
def rtdMaxIterations : ℕ := 1000

/-- Per-class lower resistance bound checked by `RTD_CalculateTemperature`
(the hard-coded constants of its `switch`); `0` for unrecognized classes. -/
def bandMin (sensor_type : ℕ) : ℚ :=
  if sensor_type = RTD_SENSOR_PT50 then 9.2
  else if sensor_type = RTD_SENSOR_PT100 then 18.3
  else if sensor_type = RTD_SENSOR_PT200 then 36.5
  else if sensor_type = RTD_SENSOR_PT500 then 91.5
  else if sensor_type = RTD_SENSOR_PT1000 then 182.5
  else 0

/-- Per-class upper resistance bound checked by `RTD_CalculateTemperature`
(the hard-coded constants of its `switch`); `0` for unrecognized classes. -/
def bandMax (sensor_type : ℕ) : ℚ :=
  if sensor_type = RTD_SENSOR_PT50 then 195.3
  else if sensor_type = RTD_SENSOR_PT100 then 390.6
  else if sensor_type = RTD_SENSOR_PT200 then 781.3
  else if sensor_type = RTD_SENSOR_PT500 then 1953.0
  else if sensor_type = RTD_SENSOR_PT1000 then 3906.5
  else 0

/-- The value of the C variable `temperature` right after the `switch` of
`RTD_CalculateTemperature`: the `switch` sets
`temperature = RTD_CONVERSION_FAILED` when the measured resistance is outside
the class's hard-coded band (or the class is unrecognized, the `default`
case); `temperature` is otherwise left at its initial `0.0`. -/
def rtdValidate (sensor_type : ℕ) (resistance : ℚ) : ℚ :=
  if recognizedClass sensor_type then
    if resistance < bandMin sensor_type ∨ resistance > bandMax sensor_type then
      RTD_CONVERSION_FAILED
    else 0
  else RTD_CONVERSION_FAILED

/-- Embedding of `RTD_CalculateTemperature` from
`src/lib/platinum_rtd_sensor.c`.  After the validating `switch`
(`rtdValidate`), the Newton–Raphson loop runs only under `if (!temperature)`,
i.e. when `temperature == 0.0`, and the function returns `temperature`
(reassigned by the loop on convergence; on band rejection or unknown class it
is the sentinel; on loop exhaustion it is still `0.0`). -/
def RTD_CalculateTemperature
    (sensor_type : ℕ) (resistance initial_temperature_estimate : ℚ) : ℚ :=
  if rtdValidate sensor_type resistance = 0 then
    newtonLoop (resistance_at_zero sensor_type) resistance rtdMaxIterations
      initial_temperature_estimate
  else rtdValidate sensor_type resistance

lemma unrecognized_resistance_at_zero {sensor_type : ℕ}
    (h : ¬ recognizedClass sensor_type) : resistance_at_zero sensor_type = 0 := by
  unfold recognizedClass at h
  push_neg at h
  obtain ⟨h1, h2, h3, h4, h5⟩ := h
  unfold resistance_at_zero
  rw [if_neg h1, if_neg h2, if_neg h3, if_neg h4, if_neg h5]

/-- C5: for a recognized class, a resistance outside that class's hard-coded
band makes `RTD_CalculateTemperature` return the failure sentinel (the
Newton–Raphson loop is never entered: the `if (!temperature)` guard sees the
sentinel). -/
theorem claim5_band_rejection (sensor_type : ℕ) (resistance guess : ℚ)
    (hst : recognizedClass sensor_type)
    (hout : resistance < bandMin sensor_type ∨ resistance > bandMax sensor_type) :
    RTD_CalculateTemperature sensor_type resistance guess = RTD_CONVERSION_FAILED := by
  have hv : rtdValidate sensor_type resistance = RTD_CONVERSION_FAILED := by
    unfold rtdValidate
    rw [if_pos hst, if_pos hout]
  unfold RTD_CalculateTemperature
  rw [hv, if_neg (by norm_num [RTD_CONVERSION_FAILED])]

/-- Witness for C5: PT100 with 5.0 Ω (below the 18.3 Ω floor) and guess 25 °C. -/
theorem claim5_band_rejection_witness :
    RTD_CalculateTemperature 100 5 25 = RTD_CONVERSION_FAILED :=
  claim5_band_rejection 100 5 25 (by decide)
    (Or.inl (by norm_num [bandMin, RTD_SENSOR_PT50, RTD_SENSOR_PT100]))

/-- C7: `RTD_CalculateResistance` returns the failure sentinel for every
temperature strictly outside [-200.5, 850.5] (for any class value), and with a
recognized class it does not fail at the boundary temperatures -200.5 and
850.5. -/
theorem claim7_temperature_range (sensor_type : ℕ) (T : ℚ) :
    ((T < -200.5 ∨ T > 850.5) →
      RTD_CalculateResistance sensor_type T = RTD_CONVERSION_FAILED) ∧
    (recognizedClass sensor_type →
      RTD_CalculateResistance sensor_type (-200.5) ≠ RTD_CONVERSION_FAILED ∧
      RTD_CalculateResistance sensor_type 850.5 ≠ RTD_CONVERSION_FAILED) := by
  constructor
  · intro h
    unfold RTD_CalculateResistance
    rw [if_pos h]
  · intro hst
    rcases hst with h | h | h | h | h <;> subst h <;>
      exact ⟨by norm_num [RTD_CalculateResistance, resistance_at_zero,
          RTD_SENSOR_PT50, RTD_SENSOR_PT100, RTD_SENSOR_PT200, RTD_SENSOR_PT500,
          RTD_SENSOR_PT1000, RTD_A_COEFFICIENT, RTD_B_COEFFICIENT,
          RTD_C_COEFFICIENT, RTD_CONVERSION_FAILED],
        by norm_num [RTD_CalculateResistance, resistance_at_zero,
          RTD_SENSOR_PT50, RTD_SENSOR_PT100, RTD_SENSOR_PT200, RTD_SENSOR_PT500,
          RTD_SENSOR_PT1000, RTD_A_COEFFICIENT, RTD_B_COEFFICIENT,
          RTD_C_COEFFICIENT, RTD_CONVERSION_FAILED]⟩

/-- Witness for C7: PT100 fails at -200.6 and 850.6 and succeeds at the
boundary temperatures -200.5 and 850.5. -/
theorem claim7_temperature_range_witness :
    RTD_CalculateResistance 100 (-200.6) = RTD_CONVERSION_FAILED ∧
    RTD_CalculateResistance 100 850.6 = RTD_CONVERSION_FAILED ∧
    RTD_CalculateResistance 100 (-200.5) ≠ RTD_CONVERSION_FAILED ∧
    RTD_CalculateResistance 100 850.5 ≠ RTD_CONVERSION_FAILED :=
  ⟨(claim7_temperature_range 100 (-200.6)).1 (Or.inl (by norm_num)),
   (claim7_temperature_range 100 850.6).1 (Or.inr (by norm_num)),
   ((claim7_temperature_range 100 0).2 (by decide)).1,
   ((claim7_temperature_range 100 0).2 (by decide)).2⟩

/-- C8: an unrecognized sensor-class value makes both entry points return the
failure sentinel, whatever the other arguments are. -/
theorem claim8_unknown_class (sensor_type : ℕ) (T resistance guess : ℚ)
    (hst : ¬ recognizedClass sensor_type) :
    RTD_CalculateResistance sensor_type T = RTD_CONVERSION_FAILED ∧
    RTD_CalculateTemperature sensor_type resistance guess = RTD_CONVERSION_FAILED := by
  constructor
  · unfold RTD_CalculateResistance
    by_cases h : T < -200.5 ∨ T > 850.5
    · rw [if_pos h]
    · rw [if_neg h, if_pos (unrecognized_resistance_at_zero hst)]
  · have hv : rtdValidate sensor_type resistance = RTD_CONVERSION_FAILED := by
      unfold rtdValidate
      rw [if_neg hst]
    unfold RTD_CalculateTemperature
    rw [hv, if_neg (by norm_num [RTD_CONVERSION_FAILED])]

/-- Witness for C8 at class value 9999 with temperature 25 °C, resistance
100 Ω and guess 25 °C. -/
theorem claim8_unknown_class_witness :
    RTD_CalculateResistance 9999 25 = RTD_CONVERSION_FAILED ∧
    RTD_CalculateTemperature 9999 100 25 = RTD_CONVERSION_FAILED :=
  claim8_unknown_class 9999 25 100 25 (by decide)

/-- C6 counterexample: the lower edge of PT100's accepted resistance band is
the hard-coded 18.3 Ω, which is not the resistance the Forward Converter
produces at -200 °C (that value is 18.52003586 Ω). -/
theorem claim6_band_counterexample :
    bandMin 100 ≠ RTD_CalculateResistance 100 (-200) := by
  norm_num [bandMin, RTD_CalculateResistance, resistance_at_zero,
    RTD_SENSOR_PT50, RTD_SENSOR_PT100, RTD_SENSOR_PT200, RTD_SENSOR_PT500,
    RTD_SENSOR_PT1000, RTD_A_COEFFICIENT, RTD_B_COEFFICIENT, RTD_C_COEFFICIENT]

/-- C6 amended: for every recognized class the accepted band is the pair of
hard-coded constants `[bandMin, bandMax]`, and it strictly contains the
interval `[RTD_CalculateResistance(class, -200), RTD_CalculateResistance(class, 850)]`
(the bounds are rounded slightly outward, not equal to the forward values). -/
theorem claim6_band_strictly_contains (sensor_type : ℕ)
    (hst : recognizedClass sensor_type) :
    bandMin sensor_type < RTD_CalculateResistance sensor_type (-200) ∧
    RTD_CalculateResistance sensor_type 850 < bandMax sensor_type := by
  rcases hst with h | h | h | h | h <;> subst h <;>
    constructor <;>
      norm_num [bandMin, bandMax, RTD_CalculateResistance, resistance_at_zero,
        RTD_SENSOR_PT50, RTD_SENSOR_PT100, RTD_SENSOR_PT200, RTD_SENSOR_PT500,
        RTD_SENSOR_PT1000, RTD_A_COEFFICIENT, RTD_B_COEFFICIENT, RTD_C_COEFFICIENT]

/-- Witness for the amended C6 at class PT100. -/
theorem claim6_band_strictly_contains_witness :
    bandMin 100 < RTD_CalculateResistance 100 (-200) ∧
    RTD_CalculateResistance 100 850 < bandMax 100 :=
  claim6_band_strictly_contains 100 (by decide)

/-- C3: at the concrete point `T = -100` (negative branch, R0 = 100), the
`derivative_value` the source computes differs from the analytic derivative
`R0 * (A + 2*B*T + C*(4*T^3 - 300*T^2))` of the Callendar–Van Dusen
polynomial: the source's expression `A + 2*B*t + 3*C*t^2 - 200*C*t + 300*C*t^2`
is not the derivative of `1 + A*t + B*t^2 + C*(t-100)*t^3`. -/
theorem claim3_derivative_mismatch :
    derivative_value 100 (-100) ≠
      100 * (RTD_A_COEFFICIENT + 2 * RTD_B_COEFFICIENT * (-100) +
        RTD_C_COEFFICIENT * (4 * (-100 : ℚ) ^ 3 - 300 * (-100 : ℚ) ^ 2)) := by
  norm_num [derivative_value, RTD_A_COEFFICIENT, RTD_B_COEFFICIENT,
    RTD_C_COEFFICIENT]

lemma newtonLoop_zero_derivative (r0 resistance : ℚ) (n : ℕ) (t : ℚ)
    (hd : derivative_value r0 t = 0) :
    newtonLoop r0 resistance (n + 1) t = t := by
  unfold newtonLoop
  rw [hd, div_zero, sub_zero]
  rw [if_pos (by norm_num [rtdTolerance])]

/-- C9: the Newton–Raphson update divides by `derivative_value` with no
guard: there is a valid call (recognized class, in-band resistance, guess
`T = A / (2*|B|) ≈ 3383.8 ≥ 0` making `A + 2*B*T = 0`) whose very first
iteration divides by a zero derivative, and the function still returns a
non-FAILURE value (it never detects the degenerate iterate). -/
theorem claim9_unguarded_derivative :
    ∃ (sensor_type : ℕ) (resistance guess : ℚ),
      recognizedClass sensor_type ∧
      bandMin sensor_type ≤ resistance ∧ resistance ≤ bandMax sensor_type ∧
      0 ≤ guess ∧
      RTD_A_COEFFICIENT + 2 * RTD_B_COEFFICIENT * guess = 0 ∧
      derivative_value (resistance_at_zero sensor_type) guess = 0 ∧
      RTD_CalculateTemperature sensor_type resistance guess ≠
        RTD_CONVERSION_FAILED := by
  refine ⟨100, 100, 3908302087 / 1155000, by decide, ?_, ?_, by norm_num, ?_, ?_, ?_⟩
  · norm_num [bandMin, RTD_SENSOR_PT50, RTD_SENSOR_PT100]
  · norm_num [bandMax, RTD_SENSOR_PT50, RTD_SENSOR_PT100]
  · norm_num [RTD_A_COEFFICIENT, RTD_B_COEFFICIENT]
  · norm_num [derivative_value, resistance_at_zero, RTD_SENSOR_PT50,
      RTD_SENSOR_PT100, RTD_A_COEFFICIENT, RTD_B_COEFFICIENT]
  · have hv : rtdValidate 100 100 = 0 := by
      unfold rtdValidate
      rw [if_pos (show recognizedClass 100 by decide),
        if_neg (show ¬((100 : ℚ) < bandMin 100 ∨ (100 : ℚ) > bandMax 100) from by
          norm_num [bandMin, bandMax, RTD_SENSOR_PT50, RTD_SENSOR_PT100])]
    unfold RTD_CalculateTemperature
    rw [hv, if_pos rfl]
    rw [show rtdMaxIterations = 999 + 1 from rfl,
      newtonLoop_zero_derivative _ _ _ _ (by norm_num [derivative_value,
        resistance_at_zero, RTD_SENSOR_PT50, RTD_SENSOR_PT100,
        RTD_A_COEFFICIENT, RTD_B_COEFFICIENT])]
    norm_num [RTD_CONVERSION_FAILED]

/-- Predicate: starting from `temperature_estimate`, none of the next `n`
Newton–Raphson iterations satisfies the convergence test
`|new_temperature_estimate - temperature_estimate| < tolerance`. -/
def neverConverges (r0 resistance : ℚ) : ℕ → ℚ → Prop
  | 0, _ => True
  | n + 1, temperature_estimate =>
    ¬(|temperature_estimate -
        function_value r0 resistance temperature_estimate /
          derivative_value r0 temperature_estimate -
        temperature_estimate| < rtdTolerance) ∧
    neverConverges r0 resistance n
      (temperature_estimate -
        function_value r0 resistance temperature_estimate /
          derivative_value r0 temperature_estimate)

/-- C4: when the Newton–Raphson loop exhausts its iteration budget without
the convergence test ever succeeding, `newtonLoop` (hence
`RTD_CalculateTemperature`, whose loop this is with budget
`rtdMaxIterations = 1000`) returns `0` — the never-reassigned initializer of
the C variable `temperature` — and not the last computed estimate. -/
theorem claim4_cap_returns_zero (r0 resistance : ℚ) (n : ℕ) (est : ℚ)
    (h : neverConverges r0 resistance n est) :
    newtonLoop r0 resistance n est = 0 := by
  induction n generalizing est with
  | zero => rfl
  | succ n ih =>
    unfold newtonLoop
    unfold neverConverges at h
    rw [if_neg h.1]
    exact ih _ h.2

/-- Witness for C4: with R0 = 100 Ω, resistance 100 Ω, a one-iteration budget
and estimate 100 °C, the first step moves by about 101.5 °C (no convergence),
and the loop result is 0. -/
theorem claim4_cap_returns_zero_witness :
    neverConverges 100 100 1 100 ∧ newtonLoop 100 100 1 100 = 0 := by
  have h : neverConverges 100 100 1 100 := by
    unfold neverConverges
    refine ⟨?_, trivial⟩
    rw [abs_lt]
    push_neg
    intro hcontra
    exfalso
    norm_num [function_value, derivative_value, rtdTolerance,
      RTD_A_COEFFICIENT, RTD_B_COEFFICIENT] at hcontra
  exact ⟨h, claim4_cap_returns_zero 100 100 1 100 h⟩

lemma cvdPoly_lower (t : ℚ) (h1 : -200 ≤ t) (h2 : t ≤ 850) :
    0.184 ≤ cvdPoly t := by
  unfold cvdPoly
  rw [RTD_A_COEFFICIENT, RTD_B_COEFFICIENT, RTD_C_COEFFICIENT]
  by_cases ht : 0 ≤ t
  · rw [if_pos ht]
    have hlin : (0 : ℚ) ≤ 3.908302087e-3 + -5.775000000e-7 * t := by
      norm_num
      linarith
    nlinarith [mul_nonneg ht hlin]
  · rw [if_neg ht]
    have ht0 : t ≤ 0 := le_of_not_le ht
    have h200 : (0 : ℚ) ≤ t + 200 := by linarith
    have hsq : t * t ≤ 40000 := by
      nlinarith [mul_nonneg h200 (show (0 : ℚ) ≤ -t by linarith)]
    have hcube : -8000000 ≤ t * t * t := by
      nlinarith [mul_nonneg h200 (sq_nonneg (t - 100))]
    have hquad : t * t * t * t ≤ 1600000000 := by
      nlinarith [mul_nonneg (show (0 : ℚ) ≤ 40000 - t * t by linarith)
        (show (0 : ℚ) ≤ t * t + 40000 by nlinarith [mul_self_nonneg t])]
    norm_num
    nlinarith [hsq, hcube, hquad]

lemma cvdPoly_upper (t : ℚ) (h1 : -200 ≤ t) (h2 : t ≤ 850) :
    cvdPoly t ≤ 3.906 := by
  unfold cvdPoly
  rw [RTD_A_COEFFICIENT, RTD_B_COEFFICIENT, RTD_C_COEFFICIENT]
  by_cases ht : 0 ≤ t
  · rw [if_pos ht]
    have hlin : (0 : ℚ) ≤ 3.908302087e-3 + -5.775000000e-7 * (850 + t) := by
      norm_num
      linarith
    nlinarith [mul_nonneg (show (0 : ℚ) ≤ 850 - t by linarith) hlin]
  · rw [if_neg ht]
    have ht0 : t ≤ 0 := le_of_not_le ht
    have hsq0 : (0 : ℚ) ≤ t * t := mul_self_nonneg t
    have hcub0 : (0 : ℚ) ≤ -(t * t * t) := by
      nlinarith [mul_nonneg hsq0 (show (0 : ℚ) ≤ -t by linarith)]
    have hquad0 : (0 : ℚ) ≤ t * t * t * t := by nlinarith [sq_nonneg (t * t)]
    nlinarith [hsq0, hcub0, hquad0]

/-- For every recognized class, the forward value `R0 * cvdPoly t` at a
temperature in [-200, 850] passes the band check of
`RTD_CalculateTemperature`. -/
lemma forward_in_band (sensor_type : ℕ) (hst : recognizedClass sensor_type)
    (t : ℚ) (h1 : -200 ≤ t) (h2 : t ≤ 850) :
    ¬(resistance_at_zero sensor_type * cvdPoly t < bandMin sensor_type ∨
      resistance_at_zero sensor_type * cvdPoly t > bandMax sensor_type) := by
  have hl := cvdPoly_lower t h1 h2
  have hu := cvdPoly_upper t h1 h2
  push_neg
  rcases hst with h | h | h | h | h <;> subst h <;>
    constructor <;>
      · simp only [resistance_at_zero, bandMin, bandMax, RTD_SENSOR_PT50,
          RTD_SENSOR_PT100, RTD_SENSOR_PT200, RTD_SENSOR_PT500, RTD_SENSOR_PT1000]
        norm_num at hl hu ⊢
        linarith

lemma function_value_self (r0 t : ℚ) :
    function_value r0 (r0 * cvdPoly t) t = 0 := by
  unfold function_value cvdPoly
  by_cases ht : 0 ≤ t
  · rw [if_pos ht, if_pos ht]; ring
  · rw [if_neg ht, if_neg ht]; ring

lemma newtonLoop_exact (r0 resistance t : ℚ) (n : ℕ)
    (hf : function_value r0 resistance t = 0) :
    newtonLoop r0 resistance (n + 1) t = t := by
  unfold newtonLoop
  rw [hf, zero_div, sub_zero]
  rw [if_pos (by rw [sub_self, abs_zero]; norm_num [rtdTolerance])]

/-- C2: for every recognized class and temperature T in [-200, 850] whose
forward conversion did not fail, the inverse conversion of that resistance
with initial guess T returns T itself (the first Newton–Raphson residual is
exactly zero, so the loop converges immediately), hence within 1e-6 °C. -/
theorem claim2_round_trip (sensor_type : ℕ) (T : ℚ)
    (hst : recognizedClass sensor_type) (h1 : -200 ≤ T) (h2 : T ≤ 850)
    (hok : RTD_CalculateResistance sensor_type T ≠ RTD_CONVERSION_FAILED) :
    |RTD_CalculateTemperature sensor_type (RTD_CalculateResistance sensor_type T) T
      - T| ≤ 1e-6 := by
  have h0 := recognized_resistance_at_zero hst
  have hres : RTD_CalculateResistance sensor_type T =
      resistance_at_zero sensor_type * cvdPoly T :=
    RTD_CalculateResistance_eq_poly sensor_type T (by linarith) (by linarith) h0
  have hv : rtdValidate sensor_type (resistance_at_zero sensor_type * cvdPoly T)
      = 0 := by
    unfold rtdValidate
    rw [if_pos hst, if_neg (forward_in_band sensor_type hst T h1 h2)]
  rw [hres]
  unfold RTD_CalculateTemperature
  rw [hv, if_pos rfl, show rtdMaxIterations = 999 + 1 from rfl,
    newtonLoop_exact _ _ _ _ (function_value_self _ T)]
  rw [sub_self, abs_zero]
  norm_num

/-- Witness for C2: PT100 at 25 °C. -/
theorem claim2_round_trip_witness :
    |RTD_CalculateTemperature 100 (RTD_CalculateResistance 100 25) 25 - 25|
      ≤ 1e-6 :=
  claim2_round_trip 100 25 (by decide) (by norm_num) (by norm_num)
    (by norm_num [RTD_CalculateResistance, resistance_at_zero, RTD_SENSOR_PT50,
      RTD_SENSOR_PT100, RTD_A_COEFFICIENT, RTD_B_COEFFICIENT,
      RTD_CONVERSION_FAILED])

/-- NaN-aware model of a C `double`: `none` plays IEEE NaN, `some q` a finite
value.  Addition of the model: NaN-propagating. -/
def dAdd : Option ℚ → Option ℚ → Option ℚ
  | some a, some b => some (a + b)
  | _, _ => none

/-- NaN-propagating subtraction on the `Option ℚ` double model. -/
def dSub : Option ℚ → Option ℚ → Option ℚ
  | some a, some b => some (a - b)
  | _, _ => none

/-- NaN-propagating multiplication on the `Option ℚ` double model. -/
def dMul : Option ℚ → Option ℚ → Option ℚ
  | some a, some b => some (a * b)
  | _, _ => none

/-- IEEE `<` on the `Option ℚ` double model: false when either side is NaN. -/
def dLt : Option ℚ → Option ℚ → Bool
  | some a, some b => decide (a < b)
  | _, _ => false

/-- IEEE `>` on the `Option ℚ` double model: false when either side is NaN. -/
def dGt : Option ℚ → Option ℚ → Bool
  | some a, some b => decide (a > b)
  | _, _ => false

/-- IEEE `>=` on the `Option ℚ` double model: false when either side is NaN. -/
def dGe : Option ℚ → Option ℚ → Bool
  | some a, some b => decide (a ≥ b)
  | _, _ => false

/-- `RTD_CalculateResistance` re-embedded over the NaN-aware double model:
same control flow as the source — the range check
`(temperature < -200.5) || (temperature > 850.5)`, the `switch` on the class,
the `!resistance_at_zero` check, and the Callendar–Van Dusen evaluation with
its `temperature >= 0.0` branch — with every comparison and arithmetic
operation on `temperature` interpreted by the IEEE-NaN-faithful operations
above. -/
def RTD_CalculateResistanceN (sensor_type : ℕ) (temperature : Option ℚ) :
    Option ℚ :=
  if dLt temperature (some (-200.5)) || dGt temperature (some 850.5) then
    some RTD_CONVERSION_FAILED
  else if resistance_at_zero sensor_type = 0 then
    some RTD_CONVERSION_FAILED
  else
    let temp_squared := dMul temperature temperature
    if dGe temperature (some 0) then
      dMul (some (resistance_at_zero sensor_type))
        (dAdd (dAdd (some 1) (dMul (some RTD_A_COEFFICIENT) temperature))
          (dMul (some RTD_B_COEFFICIENT) temp_squared))
    else
      let temp_cubed := dMul temp_squared temperature
      dMul (some (resistance_at_zero sensor_type))
        (dAdd
          (dAdd (dAdd (some 1) (dMul (some RTD_A_COEFFICIENT) temperature))
            (dMul (some RTD_B_COEFFICIENT) temp_squared))
          (dMul (dMul (some RTD_C_COEFFICIENT) (dSub temperature (some 100)))
            temp_cubed))

/-- C10: with a recognized class and a NaN temperature, both range
comparisons of `RTD_CalculateResistance` are false (IEEE comparisons with
NaN), so the function does not return the failure sentinel: it falls through
to the polynomial evaluation and returns NaN. -/
theorem claim10_nan_passthrough (sensor_type : ℕ)
    (hst : recognizedClass sensor_type) :
    dLt none (some (-200.5)) = false ∧
    dGt none (some 850.5) = false ∧
    RTD_CalculateResistanceN sensor_type none = none ∧
    RTD_CalculateResistanceN sensor_type none ≠ some RTD_CONVERSION_FAILED := by
  have hmain : RTD_CalculateResistanceN sensor_type none = none := by
    unfold RTD_CalculateResistanceN
    rw [if_neg (by rcases hst with h | h | h | h | h <;> subst h <;> decide),
      if_neg (recognized_resistance_at_zero hst)]
    rfl
  exact ⟨rfl, rfl, hmain, by rw [hmain]; exact fun h => Option.noConfusion h⟩

/-- Witness for C10 at sensor class PT100. -/
theorem claim10_nan_passthrough_witness :
    dLt none (some (-200.5)) = false ∧
    dGt none (some 850.5) = false ∧
    RTD_CalculateResistanceN 100 none = none ∧
    RTD_CalculateResistanceN 100 none ≠ some RTD_CONVERSION_FAILED :=
  claim10_nan_passthrough 100 (by decide)
